import Mathlib

/-!
Verification of the script `src/TOOLS API CALLS/1-basic.py`.

The script reads the credential `OPENAI_API_KEY` from the process
environment, constructs an OpenAI client, issues a single blocking
chat-completion request with a fixed model name and a fixed two-message
conversation, reads `completion.choices[0].message.content` and prints it.

We embed the script as a pure function `run`, parameterised by the process
environment (a partial map from variable names to values) and by the
external chat-completion service (an oracle from the request actually sent
to either an error or a completion).  The result records the environment
reads performed, the outbound requests issued in order, the text written to
standard output, and how the process terminated.
-/

/-- A chat message as built in the request literal of the script:
a `role` string and a `content` string. -/
structure Message where
  role : String
  content : String
deriving DecidableEq

/-- The message held by one choice of a completion response.  Its `content`
field is nullable in the service's schema, hence `Option String`. -/
structure RespMessage where
  content : Option String
deriving DecidableEq

/-- One candidate answer within a completion response. -/
structure Choice where
  message : RespMessage
deriving DecidableEq

/-- The response entity returned by the service: an ordered sequence of
choices. -/
structure Completion where
  choices : List Choice
deriving DecidableEq

/-- The outbound request as the script issues it: the api key carried by the
client, the keyword arguments `model` and `messages` of the `create` call,
and any further keyword arguments (`otherParams`) the call passes.  The
script's single `create` call passes only `model` and `messages`, so in its
request `otherParams` is empty. -/
structure SentRequest where
  apiKey : String
  model : String
  messages : List Message
  otherParams : List (String × String)
deriving DecidableEq

/-- The first message of the fixed conversation, from the source literal. -/
def systemMessage : Message :=
  ⟨"system", "You're a helpful assistant."⟩

/-- The second message of the fixed conversation, from the source literal. -/
def userMessage : Message :=
  ⟨"user", "Write a limerick about the Python programming language."⟩

/-- The fixed conversation passed as `messages=` in the `create` call. -/
def requestMessages : List Message :=
  [systemMessage, userMessage]

/-- The fixed model identifier passed as `model=` in the `create` call. -/
def modelName : String := "gpt-4o"

/-- The request the script sends once the client holds key `k`. -/
def reqFor (k : String) : SentRequest :=
  ⟨k, modelName, requestMessages, []⟩

/-- Python's `print` applies `str` to its argument before writing it;
`str` of a string is the string itself and `str(None)` is `"None"`. -/
def pyStr : Option String → String
  | none => "None"
  | some s => s

/-- The ways the script can terminate abnormally: the client constructor
raising on a missing key, the service call raising, or the unguarded
`choices[0]` raising on an empty list. -/
inductive ScriptError where
  | missingCredential : ScriptError
  | serviceError : String → ScriptError
  | indexError : ScriptError
deriving DecidableEq

/-- Modelled from the spec: the client constructor `OpenAI(api_key=...)`
belongs to the OpenAI SDK, a dependency whose code is not part of this
repository.  Per the spec's contract — "read the credential from the
environment; fail immediately if absent" — constructing the client with an
absent key raises before any request is issued; with a present key the key
is stored opaquely, with no local check on its content. -/
def mkClient : Option String → Except ScriptError String
  | none => Except.error ScriptError.missingCredential
  | some k => Except.ok k

/-- The outcome of one invocation of the script: the environment variables
read in order, the outbound requests issued in order, everything written to
standard output, and the terminal state (`Except.ok ()` for a normal exit,
`Except.error e` for an uncaught error). -/
structure RunResult where
  envReads : List String
  requests : List SentRequest
  stdout : String
  exit : Except ScriptError Unit

/-- The whole script, line by line: read `OPENAI_API_KEY` from the
environment (one `os.getenv` call), construct the client, issue the single
`create` call with the fixed model and messages, index `choices[0]`, and
print the resulting content with a trailing newline. -/
def run (env : String → Option String)
    (service : SentRequest → Except String Completion) : RunResult :=
  match mkClient (env "OPENAI_API_KEY") with
  | Except.error e => ⟨["OPENAI_API_KEY"], [], "", Except.error e⟩
  | Except.ok key =>
    match service (reqFor key) with
    | Except.error e =>
        ⟨["OPENAI_API_KEY"], [reqFor key], "", Except.error (ScriptError.serviceError e)⟩
    | Except.ok completion =>
      match completion.choices with
      | [] => ⟨["OPENAI_API_KEY"], [reqFor key], "", Except.error ScriptError.indexError⟩
      | c :: _ =>
          ⟨["OPENAI_API_KEY"], [reqFor key], pyStr c.message.content ++ "\n", Except.ok ()⟩

/-- The process exit status: 0 on normal termination, 1 (the Python
interpreter's status for an uncaught exception) otherwise. -/
def exitCode (r : RunResult) : Nat :=
  match r.exit with
  | Except.ok _ => 0
  | Except.error _ => 1

/-- An environment in which `OPENAI_API_KEY` is set to `k` and nothing
else is set. -/
def envWith (k : String) : String → Option String :=
  fun name => if name = "OPENAI_API_KEY" then some k else none

/-- An environment with no variable set. -/
def emptyEnv : String → Option String := fun _ => none

theorem append_newline_ne_empty (s : String) : s ++ "\n" ≠ "" := by
  intro h
  have hlen := congrArg String.length h
  simp [String.length_append] at hlen
  exact absurd hlen.2 (by decide)

/-- C1: on every invocation, every request sent to the chat-completion
endpoint carries exactly the fixed two-message conversation, system message
first and user message second, with the literal contents of the source;
the list does not depend on the environment or on the service. -/
theorem spec_C1 (env : String → Option String)
    (service : SentRequest → Except String Completion)
    (r : SentRequest) (h : r ∈ (run env service).requests) :
    r.messages = [⟨"system", "You're a helpful assistant."⟩,
      ⟨"user", "Write a limerick about the Python programming language."⟩] := by
  cases he : env "OPENAI_API_KEY" with
  | none => simp [run, mkClient, he] at h
  | some k =>
    cases hs : service (reqFor k) with
    | error e =>
        simp [run, mkClient, he, hs] at h
        subst h
        rfl
    | ok comp =>
      cases hc : comp.choices with
      | nil =>
          simp [run, mkClient, he, hs, hc] at h
          subst h
          rfl
      | cons c rest =>
          simp [run, mkClient, he, hs, hc] at h
          subst h
          rfl

theorem spec_C1_witness :
    (reqFor "k").messages = [⟨"system", "You're a helpful assistant."⟩,
      ⟨"user", "Write a limerick about the Python programming language."⟩] :=
  spec_C1 (envWith "k") (fun _ => Except.error "down") (reqFor "k")
    (by simp [run, mkClient, envWith])

/-- C2: only the first choice of the completion is consumed: a run in which
the service answers with choices `c :: rest` is indistinguishable from one
in which it answers with `[c]`; the extra choices cause no error and change
nothing. -/
theorem spec_C2 (env : String → Option String) (c : Choice) (rest : List Choice) :
    run env (fun _ => Except.ok ⟨c :: rest⟩) = run env (fun _ => Except.ok ⟨[c]⟩) := by
  cases he : env "OPENAI_API_KEY" <;> simp [run, mkClient, he]

/-- C3: on a successful call whose first choice carries content `s`, the
text written to standard output is exactly `s` followed by one newline,
and the process exits normally. -/
theorem spec_C3 (env : String → Option String)
    (service : SentRequest → Except String Completion)
    (k s : String) (rest : List Choice)
    (hk : env "OPENAI_API_KEY" = some k)
    (hs : service (reqFor k) = Except.ok ⟨⟨⟨some s⟩⟩ :: rest⟩) :
    (run env service).stdout = s ++ "\n" ∧ (run env service).exit = Except.ok () := by
  simp [run, mkClient, hk, hs, pyStr]

theorem spec_C3_witness :
    (run (envWith "k") (fun _ => Except.ok ⟨[⟨⟨some "a limerick"⟩⟩]⟩)).stdout
        = "a limerick" ++ "\n"
      ∧ (run (envWith "k") (fun _ => Except.ok ⟨[⟨⟨some "a limerick"⟩⟩]⟩)).exit
        = Except.ok () :=
  spec_C3 (envWith "k") (fun _ => Except.ok ⟨[⟨⟨some "a limerick"⟩⟩]⟩)
    "k" "a limerick" [] (by simp [envWith]) rfl

/-- C4: when the credential variable is absent from the environment, the
invocation fails with the missing-credential error before any request is
issued and before anything is written to standard output. -/
theorem spec_C4 (env : String → Option String)
    (service : SentRequest → Except String Completion)
    (h : env "OPENAI_API_KEY" = none) :
    (run env service).requests = [] ∧ (run env service).stdout = ""
      ∧ (run env service).exit = Except.error ScriptError.missingCredential := by
  simp [run, mkClient, h]

theorem spec_C4_witness :
    (run emptyEnv (fun _ => Except.error "down")).requests = []
      ∧ (run emptyEnv (fun _ => Except.error "down")).stdout = ""
      ∧ (run emptyEnv (fun _ => Except.error "down")).exit
        = Except.error ScriptError.missingCredential :=
  spec_C4 emptyEnv (fun _ => Except.error "down") rfl

/-- C5: with the credential present and the service returning a completion
holding at least one choice, the run writes a non-empty string to standard
output and exits normally. -/
theorem spec_C5 (env : String → Option String)
    (service : SentRequest → Except String Completion)
    (k : String) (comp : Completion)
    (hk : env "OPENAI_API_KEY" = some k)
    (hs : service (reqFor k) = Except.ok comp)
    (hc : comp.choices ≠ []) :
    (run env service).stdout ≠ "" ∧ (run env service).exit = Except.ok () := by
  cases hcc : comp.choices with
  | nil => exact absurd hcc hc
  | cons c rest =>
    refine ⟨?_, by simp [run, mkClient, hk, hs, hcc]⟩
    have : (run env service).stdout = pyStr c.message.content ++ "\n" := by
      simp [run, mkClient, hk, hs, hcc]
    rw [this]
    exact append_newline_ne_empty _

theorem spec_C5_witness :
    (run (envWith "k") (fun _ => Except.ok ⟨[⟨⟨some "text"⟩⟩]⟩)).stdout ≠ ""
      ∧ (run (envWith "k") (fun _ => Except.ok ⟨[⟨⟨some "text"⟩⟩]⟩)).exit
        = Except.ok () :=
  spec_C5 (envWith "k") (fun _ => Except.ok ⟨[⟨⟨some "text"⟩⟩]⟩)
    "k" ⟨[⟨⟨some "text"⟩⟩]⟩ (by simp [envWith]) rfl (by simp)

/-- C6 counterexample: the claim says every invocation issues exactly one
outbound request, but an invocation with the credential variable absent
fails at client construction and issues none. -/
theorem spec_C6_counterexample :
    (run emptyEnv (fun _ => Except.error "down")).requests.length ≠ 1 := by
  simp [run, mkClient, emptyEnv]

/-- C6 (amended): every invocation in which the credential is present
issues exactly one outbound request, identifying the fixed model name
"gpt-4o" and the fixed two-message list, with no other request parameters
set. -/
theorem spec_C6 (env : String → Option String)
    (service : SentRequest → Except String Completion)
    (k : String) (hk : env "OPENAI_API_KEY" = some k) :
    (run env service).requests = [⟨k, "gpt-4o", [systemMessage, userMessage], []⟩] := by
  have h1 : (run env service).requests = [reqFor k] := by
    cases hs : service (reqFor k) with
    | error e => simp [run, mkClient, hk, hs]
    | ok comp => cases hc : comp.choices <;> simp [run, mkClient, hk, hs, hc]
  rw [h1]
  rfl

theorem spec_C6_witness :
    (run (envWith "k") (fun _ => Except.error "down")).requests
      = [⟨"k", "gpt-4o", [systemMessage, userMessage], []⟩] :=
  spec_C6 (envWith "k") (fun _ => Except.error "down") "k" (by simp [envWith])

/-- C7: when the service call fails, the error is propagated to the
terminal state with no retry (still exactly one request was issued), no
fallback, no output written, and a non-zero exit status. -/
theorem spec_C7 (env : String → Option String)
    (service : SentRequest → Except String Completion)
    (k e : String) (hk : env "OPENAI_API_KEY" = some k)
    (hs : service (reqFor k) = Except.error e) :
    (run env service).stdout = ""
      ∧ (run env service).requests.length = 1
      ∧ (run env service).exit = Except.error (ScriptError.serviceError e)
      ∧ exitCode (run env service) ≠ 0 := by
  simp [run, mkClient, hk, hs, exitCode]

theorem spec_C7_witness :
    (run (envWith "k") (fun _ => Except.error "auth")).stdout = ""
      ∧ (run (envWith "k") (fun _ => Except.error "auth")).requests.length = 1
      ∧ (run (envWith "k") (fun _ => Except.error "auth")).exit
        = Except.error (ScriptError.serviceError "auth")
      ∧ exitCode (run (envWith "k") (fun _ => Except.error "auth")) ≠ 0 :=
  spec_C7 (envWith "k") (fun _ => Except.error "auth") "k" "auth"
    (by simp [envWith]) rfl

/-- C8: whatever string `k` the credential variable holds, the environment
is read exactly once, and the request is issued carrying `k` verbatim as
the api key: no local check on the content of `k` blocks or alters the
call. -/
theorem spec_C8 (k : String)
    (service : SentRequest → Except String Completion) :
    (run (envWith k) service).envReads = ["OPENAI_API_KEY"]
      ∧ (run (envWith k) service).requests
        = [⟨k, modelName, requestMessages, []⟩] := by
  cases hs : service (reqFor k) with
  | error e =>
      exact ⟨by simp [run, mkClient, envWith, hs],
        by simp [run, mkClient, envWith, hs]; rfl⟩
  | ok comp =>
      cases hc : comp.choices with
      | nil =>
          exact ⟨by simp [run, mkClient, envWith, hs, hc],
            by simp [run, mkClient, envWith, hs, hc]; rfl⟩
      | cons c rest =>
          exact ⟨by simp [run, mkClient, envWith, hs, hc],
            by simp [run, mkClient, envWith, hs, hc]; rfl⟩

/-- C9: when the service returns a completion with an empty choices list,
the unguarded indexing raises, the run terminates with the index error,
and nothing is written to standard output. -/
theorem spec_C9 (k : String) :
    (run (envWith k) (fun _ => Except.ok ⟨[]⟩)).exit
        = Except.error ScriptError.indexError
      ∧ (run (envWith k) (fun _ => Except.ok ⟨[]⟩)).stdout = "" := by
  simp [run, mkClient, envWith]

/-- C10: when the first choice's content is null, the script does not
fail: it prints the literal text "None" followed by a newline and exits
normally. -/
theorem spec_C10 (k : String) (rest : List Choice) :
    (run (envWith k) (fun _ => Except.ok ⟨⟨⟨none⟩⟩ :: rest⟩)).stdout = "None\n"
      ∧ (run (envWith k) (fun _ => Except.ok ⟨⟨⟨none⟩⟩ :: rest⟩)).exit
        = Except.ok () := by
  simp [run, mkClient, envWith, pyStr]
